import Mathlib

/-!
Shallow embedding of the Gold-Ai ledger and balance-derivation engine.

Sources embedded (translated from the Python source, file by file):
- `src/GOLD AI/enums.py` — the 8 transaction variants;
- `src/GOLD AI/models.py` — Customer / BankAccount / JewelryItem / Transaction rows;
- `src/GOLD AI/schemas.py` — the per-variant detail payloads;
- `src/GOLD AI/routers/transactions.py` — `create_transaction` (valuation + append);
- `src/GOLD AI/routers/customers.py` — balance / by-purity / jewelry projections,
  `get_customer_transactions`;
- `src/adapters/sqlalchemy_adapter.py` — `SqlAlchemyAdapter.execute_transaction`,
  `get_account_balance`, `_calculate_customer_balance`;
- `src/adapters/mock_adapter.py` — `MockAccountingAdapter.execute_transaction`,
  `get_account_balance`.

Decimal values are modelled as exact rationals (`ℚ`); the database is a record of
lists; SQL `ORDER BY transaction_date ASC` is modelled as a stable insertion sort on
the date; timestamps (`datetime.utcnow`) and fresh uuids are external inputs threaded
as explicit arguments.
-/

namespace GoldAi

/-- The 8 fixed transaction variants, from `GOLD AI/enums.py` (`TransactionType`). -/
inductive TransactionType where
  | sellRawGold
  | buyRawGold
  | receiveMoney
  | sendMoney
  | receiveRawGold
  | giveRawGold
  | receiveJewelry
  | giveJewelry
deriving DecidableEq, Repr

/-- The string value of each enum member, from `GOLD AI/enums.py`. -/
def TransactionType.value : TransactionType → String
  | .sellRawGold => "Sell Raw Gold"
  | .buyRawGold => "Buy Raw Gold"
  | .receiveMoney => "Receive Money"
  | .sendMoney => "Send Money"
  | .receiveRawGold => "Receive Raw Gold"
  | .giveRawGold => "Give Raw Gold"
  | .receiveJewelry => "Receive Jewelry"
  | .giveJewelry => "Give Jewelry"

/-- `TransactionType(tx_type_str)` — parse the enum from its string value;
`none` models the `ValueError` branch. -/
def parseTransactionType (s : String) : Option TransactionType :=
  if s == "Sell Raw Gold" then some .sellRawGold
  else if s == "Buy Raw Gold" then some .buyRawGold
  else if s == "Receive Money" then some .receiveMoney
  else if s == "Send Money" then some .sendMoney
  else if s == "Receive Raw Gold" then some .receiveRawGold
  else if s == "Give Raw Gold" then some .giveRawGold
  else if s == "Receive Jewelry" then some .receiveJewelry
  else if s == "Give Jewelry" then some .giveJewelry
  else none

/-- `Customer` row, from `GOLD AI/models.py`. -/
structure Customer where
  customer_id : Nat
  full_name : String
  initial_money_balance : ℚ
  initial_gold_balance_grams : ℚ
deriving DecidableEq, Repr

/-- `BankAccount` row, from `GOLD AI/models.py`. -/
structure BankAccount where
  account_id : Nat
  account_name : String
deriving DecidableEq, Repr

/-- `JewelryItem` row, from `GOLD AI/models.py`. -/
structure JewelryItem where
  jewelry_id : Nat
  jewelry_code : String
  name : String
  weight_grams : ℚ
  purity : ℚ
  premium : ℚ
  status : String
deriving DecidableEq, Repr

/-- `Transaction` ledger row, from `GOLD AI/models.py` (the unused nullable
`item_type` column is omitted; `transaction_type` keeps the enum rather than its
string value — the mapping `TransactionType.value` is injective). -/
structure Transaction where
  transaction_id : Nat
  customer_id : Nat
  transaction_date : Nat
  transaction_type : TransactionType
  item_id : Option Nat
  bank_account_id : Option Nat
  price : Option ℚ
  weight_grams : Option ℚ
  purity : Option ℚ
  money_amount : ℚ
  gold_amount_grams : ℚ
  notes : Option String
deriving DecidableEq, Repr

/-- Database state: the four entity tables plus the append-only ledger; `next_tx_id`
models the autoincrement primary key of `transactions`. -/
structure DB where
  customers : List Customer
  bank_accounts : List BankAccount
  jewelry_items : List JewelryItem
  transactions : List Transaction
  next_tx_id : Nat
deriving DecidableEq, Repr

/-- The per-variant detail payloads of `GOLD AI/schemas.py` as a closed sum:
`SellRawGoldSchema` … `GiveJewelrySchema`. -/
inductive TransactionDetails where
  | sellRawGold (purity weight_grams price : ℚ)
  | buyRawGold (purity weight_grams price : ℚ)
  | receiveMoney (amount : ℚ) (bank_account_id : Nat)
  | sendMoney (amount : ℚ) (bank_account_id : Nat)
  | receiveRawGold (weight_grams purity : ℚ)
  | giveRawGold (weight_grams purity : ℚ)
  | receiveJewelry (jewelry_code : String)
  | giveJewelry (jewelry_code : String)
deriving DecidableEq, Repr

/-- The variant a details payload belongs to (which `isinstance` check it passes). -/
def TransactionDetails.variant : TransactionDetails → TransactionType
  | .sellRawGold _ _ _ => .sellRawGold
  | .buyRawGold _ _ _ => .buyRawGold
  | .receiveMoney _ _ => .receiveMoney
  | .sendMoney _ _ => .sendMoney
  | .receiveRawGold _ _ => .receiveRawGold
  | .giveRawGold _ _ => .giveRawGold
  | .receiveJewelry _ => .receiveJewelry
  | .giveJewelry _ => .giveJewelry

/-- Error taxonomy of the validated HTTP path: `HTTPException(404)` is `notFound`,
`HTTPException(422)` is `invalidPayload`. -/
inductive ApiError where
  | notFound (msg : String)
  | invalidPayload (msg : String)
deriving DecidableEq, Repr

/-- Append a fully valuated row: `Transaction(...)`, `db.add(tx)`, `db.commit()` in
`routers/transactions.py` / `sqlalchemy_adapter.py`; the autoincrement id and the
`datetime.utcnow` default are made explicit. -/
def appendTx (db : DB) (now : Nat) (cid : Nat) (ty : TransactionType)
    (item_id bank_account_id : Option Nat) (price weight_grams pur : Option ℚ)
    (money gold : ℚ) (notes : Option String) : DB × Transaction :=
  let tx : Transaction :=
    { transaction_id := db.next_tx_id
      customer_id := cid
      transaction_date := now
      transaction_type := ty
      item_id := item_id
      bank_account_id := bank_account_id
      price := price
      weight_grams := weight_grams
      purity := pur
      money_amount := money
      gold_amount_grams := gold
      notes := notes }
  ({ db with transactions := db.transactions ++ [tx], next_tx_id := db.next_tx_id + 1 }, tx)

/-- Set `jewelry.status = "In Stock (Consignment)"` on the row with the given
primary key (the ORM mutation in the Receive Jewelry branch). -/
def setConsignment (db : DB) (jid : Nat) : DB :=
  { db with jewelry_items := db.jewelry_items.map fun j =>
      if j.jewelry_id == jid then { j with status := "In Stock (Consignment)" } else j }

/-- `create_transaction` from `GOLD AI/routers/transactions.py`: validate the
customer, dispatch on the declared type, check the details payload is of the matching
schema (the pydantic `model_validator` plus the router's `isinstance` checks),
validate referenced bank account / jewelry item, compute the signed deltas and append
one row. `now` is the external clock read (`datetime.utcnow`). -/
def create_transaction (db : DB) (now : Nat) (customer_id : Nat)
    (ty : TransactionType) (details : TransactionDetails) (notes : Option String) :
    Except ApiError (DB × Transaction) :=
  match db.customers.find? (fun c => c.customer_id == customer_id) with
  | none => .error (.notFound "Customer not found")
  | some _ =>
    match ty, details with
    | .sellRawGold, .sellRawGold pur w price =>
      .ok (appendTx db now customer_id .sellRawGold none none
        (some price) (some w) (some pur) price (-w) notes)
    | .buyRawGold, .buyRawGold pur w price =>
      .ok (appendTx db now customer_id .buyRawGold none none
        (some price) (some w) (some pur) (-price) w notes)
    | .receiveMoney, .receiveMoney amount bank_id =>
      match db.bank_accounts.find? (fun b => b.account_id == bank_id) with
      | none => .error (.notFound "Bank account not found")
      | some _ =>
        .ok (appendTx db now customer_id .receiveMoney none (some bank_id)
          none none none amount 0 notes)
    | .sendMoney, .sendMoney amount bank_id =>
      match db.bank_accounts.find? (fun b => b.account_id == bank_id) with
      | none => .error (.notFound "Bank account not found")
      | some _ =>
        .ok (appendTx db now customer_id .sendMoney none (some bank_id)
          none none none (-amount) 0 notes)
    | .receiveRawGold, .receiveRawGold w pur =>
      .ok (appendTx db now customer_id .receiveRawGold none none
        none (some w) (some pur) 0 w notes)
    | .giveRawGold, .giveRawGold w pur =>
      .ok (appendTx db now customer_id .giveRawGold none none
        none (some w) (some pur) 0 (-w) notes)
    | .receiveJewelry, .receiveJewelry code =>
      match db.jewelry_items.find? (fun j => j.jewelry_code == code) with
      | none => .error (.notFound "Jewelry not found")
      | some j =>
        let pure_gold := j.weight_grams * j.purity
        .ok (appendTx (setConsignment db j.jewelry_id) now customer_id .receiveJewelry
          (some j.jewelry_id) none none none none 0 pure_gold notes)
    | .giveJewelry, .giveJewelry code =>
      match db.jewelry_items.find? (fun j => j.jewelry_code == code) with
      | none => .error (.notFound "Jewelry not found")
      | some j =>
        let pure_gold := j.weight_grams * j.purity
        .ok (appendTx db now customer_id .giveJewelry
          (some j.jewelry_id) none none none none 0 (-pure_gold) notes)
    | _, _ => .error (.invalidPayload "Invalid details for transaction type")

/-- An event submitted to the validated endpoint, with its external clock reading. -/
structure Event where
  time : Nat
  customer_id : Nat
  tx_type : TransactionType
  details : TransactionDetails
  notes : Option String
deriving DecidableEq, Repr

/-- Apply one event: on success keep the new state, on a 404/422 rejection the
session is never committed and the state is unchanged. -/
def applyEvent (db : DB) (ev : Event) : DB :=
  match create_transaction db ev.time ev.customer_id ev.tx_type ev.details ev.notes with
  | .ok (db', _) => db'
  | .error _ => db

/-- Apply a sequence of submitted events in order. -/
def applyEvents (db : DB) (evs : List Event) : DB :=
  evs.foldl applyEvent db

/-! ### Balance projections, from `GOLD AI/routers/customers.py` -/

/-- `_customer_balances`: the coalesced sums of `money_amount` and
`gold_amount_grams` over the customer's ledger rows. -/
def customerSums (db : DB) (customer_id : Nat) : ℚ × ℚ :=
  let rows := db.transactions.filter (fun t => t.customer_id == customer_id)
  ((rows.map (fun t => t.money_amount)).sum, (rows.map (fun t => t.gold_amount_grams)).sum)

/-- The `money_balance` field of `_customer_response`:
`initial_money_balance + money_sum`. -/
def moneyBalance (db : DB) (c : Customer) : ℚ :=
  c.initial_money_balance + (customerSums db c.customer_id).1

/-- The `gold_balance_grams` field of `_customer_response`:
`initial_gold_balance_grams + gold_sum`. -/
def goldBalance (db : DB) (c : Customer) : ℚ :=
  c.initial_gold_balance_grams + (customerSums db c.customer_id).2

/-- `RAW_GOLD_TYPES`, the four raw-gold variants. -/
def isRawGoldType (ty : TransactionType) : Bool :=
  ty == .sellRawGold || ty == .buyRawGold || ty == .receiveRawGold || ty == .giveRawGold

/-- `JEWELRY_TYPES`, the two jewelry variants. -/
def isJewelryType (ty : TransactionType) : Bool :=
  ty == .receiveJewelry || ty == .giveJewelry

/-- The rows feeding the by-purity query: this customer's rows of the four raw-gold
variants with non-null purity. -/
def rawGoldRows (db : DB) (customer_id : Nat) : List Transaction :=
  db.transactions.filter fun t =>
    t.customer_id == customer_id && isRawGoldType t.transaction_type && t.purity.isSome

/-- First-occurrence deduplication, modelling SQL `GROUP BY` key extraction. -/
def groupKeys {α : Type} [DecidableEq α] : List α → List α
  | [] => []
  | a :: l => a :: (groupKeys (l.filter (fun x => x ≠ a)))
termination_by l => l.length
decreasing_by
  simp only [List.length_cons]
  exact Nat.lt_succ_of_le (List.length_filter_le _ _)

/-- `get_customer_balance_raw_gold_by_purity` (the grouped query, after the
customer-exists check): one `(purity, net_gold_grams)` bucket per distinct non-null
purity among the four raw-gold variants. -/
def rawGoldByPurity (db : DB) (customer_id : Nat) : List (ℚ × ℚ) :=
  let rows := rawGoldRows db customer_id
  (groupKeys (rows.filterMap (fun t => t.purity))).map fun p =>
    (p, ((rows.filter (fun t => t.purity = some p)).map (fun t => t.gold_amount_grams)).sum)

/-- The rows feeding the jewelry query: this customer's Receive/Give Jewelry rows
with non-null `item_id`. -/
def jewelryRows (db : DB) (customer_id : Nat) : List Transaction :=
  db.transactions.filter fun t =>
    t.customer_id == customer_id && isJewelryType t.transaction_type && t.item_id.isSome

/-- The custody label computed in `get_customer_balance_jewelry`:
`"Held by us" if net > 0 else ("With customer" if net < 0 else "Settled")`. -/
def custodyLabel (net : ℚ) : String :=
  if net > 0 then "Held by us" else if net < 0 then "With customer" else "Settled"

/-- The jewelry code reported for an item id: the catalog row's `jewelry_code`, or
`str(item_id)` when no catalog row matches. -/
def jewelryCodeFor (db : DB) (item_id : Nat) : String :=
  match db.jewelry_items.find? (fun j => j.jewelry_id == item_id) with
  | some j => j.jewelry_code
  | none => toString item_id

/-- Net `gold_amount_grams` for one grouped `item_id`. -/
def jewelryNet (db : DB) (customer_id item_id : Nat) : ℚ :=
  (((jewelryRows db customer_id).filter (fun t => t.item_id == some item_id)).map
    (fun t => t.gold_amount_grams)).sum

/-- `get_customer_balance_jewelry` (the grouped query, after the customer-exists
check): per distinct referenced `item_id`, the jewelry code and the custody label of
the net gold amount. -/
def jewelryBalance (db : DB) (customer_id : Nat) : List (String × String) :=
  let rows := jewelryRows db customer_id
  (groupKeys (rows.filterMap (fun t => t.item_id))).map fun i =>
    (jewelryCodeFor db i, custodyLabel (jewelryNet db customer_id i))

/-- Stable insertion of a row into a date-sorted list: the new row goes after every
row whose date is not greater (ties keep the earlier row first). -/
def insertByDate (t : Transaction) : List Transaction → List Transaction
  | [] => [t]
  | u :: us =>
    if t.transaction_date ≤ u.transaction_date then t :: u :: us else u :: insertByDate t us

/-- Stable sort by `transaction_date` ascending, modelling
`ORDER BY transaction_date ASC`. -/
def sortByDate : List Transaction → List Transaction
  | [] => []
  | t :: ts => insertByDate t (sortByDate ts)

/-- `get_customer_transactions`: 404 when the customer is unknown, otherwise this
customer's rows ordered by `transaction_date` ascending. -/
def get_customer_transactions (db : DB) (customer_id : Nat) :
    Except ApiError (List Transaction) :=
  match db.customers.find? (fun c => c.customer_id == customer_id) with
  | none => .error (.notFound "Customer not found")
  | some _ =>
    .ok (sortByDate (db.transactions.filter (fun t => t.customer_id == customer_id)))

/-! ### SQLAlchemy adapter, from `src/adapters/sqlalchemy_adapter.py` -/

/-- A `balance` dictionary: `{"rial": ..., "gold_gr": ..., "usd": ...}`. -/
structure Balance where
  rial : ℚ
  gold_gr : ℚ
  usd : ℚ
deriving DecidableEq, Repr

/-- The loosely-typed `details` dict handed to the adapter: each key may be absent
(`dict.get` returns `None`). -/
structure DetailsDict where
  price : Option ℚ
  weight_grams : Option ℚ
  purity : Option ℚ
  amount : Option ℚ
  bank_account_id : Option Nat
  jewelry_code : Option String
deriving DecidableEq, Repr

/-- A details dict with every key absent. -/
def DetailsDict.empty : DetailsDict :=
  { price := none, weight_grams := none, purity := none, amount := none,
    bank_account_id := none, jewelry_code := none }

/-- The `transaction_details` dict argument of the adapter's `execute_transaction`:
top-level keys may also be absent. -/
structure TxRequest where
  customer_id : Option Nat
  transaction_type : Option String
  details : DetailsDict
  notes : Option String
deriving DecidableEq, Repr

/-- The result dict of `execute_transaction`:
`{"status": ..., "transaction_id": ..., "message": ...}`. -/
structure TxResult where
  status : String
  transaction_id : Option String
  message : Option String
deriving DecidableEq, Repr

/-- An error result: `{"status": "error", "message": msg}`. -/
def errorResult (msg : String) : TxResult :=
  { status := "error", transaction_id := none, message := some msg }

/-- The success result built after `db.commit()`. -/
def successResult (tx_id : Nat) : TxResult :=
  { status := "success", transaction_id := some (toString tx_id),
    message := some "Transaction executed successfully" }

/-- `SqlAlchemyAdapter.execute_transaction`: validate the customer and the type
string, then compute deltas with `details.get(key, 0)` defaulting — a missing numeric
field silently becomes 0 — validate bank/jewelry references where applicable, append
the row and return a status dict. Every §4.1/4.2 failure becomes an error result and
leaves the session uncommitted (the state unchanged); the function is total, so
nothing is thrown across the interface boundary. `now` is the external clock read. -/
def adapterExecute (db : DB) (now : Nat) (req : TxRequest) : DB × TxResult :=
  match db.customers.find? (fun c => some c.customer_id == req.customer_id) with
  | none => (db, errorResult "Customer not found")
  | some _ =>
    match req.transaction_type.bind parseTransactionType with
    | none => (db, errorResult "Invalid transaction type")
    | some ty =>
      let d := req.details
      match ty with
      | .sellRawGold =>
        let (db', tx) := appendTx db now (req.customer_id.getD 0) .sellRawGold none none
          (some (d.price.getD 0)) (some (d.weight_grams.getD 0)) (some (d.purity.getD 0))
          (d.price.getD 0) (-(d.weight_grams.getD 0)) req.notes
        (db', successResult tx.transaction_id)
      | .buyRawGold =>
        let (db', tx) := appendTx db now (req.customer_id.getD 0) .buyRawGold none none
          (some (d.price.getD 0)) (some (d.weight_grams.getD 0)) (some (d.purity.getD 0))
          (-(d.price.getD 0)) (d.weight_grams.getD 0) req.notes
        (db', successResult tx.transaction_id)
      | .receiveMoney =>
        match db.bank_accounts.find? (fun b => some b.account_id == d.bank_account_id) with
        | none => (db, errorResult "Bank account not found")
        | some b =>
          let (db', tx) := appendTx db now (req.customer_id.getD 0) .receiveMoney none
            (some b.account_id) none none none (d.amount.getD 0) 0 req.notes
          (db', successResult tx.transaction_id)
      | .sendMoney =>
        match db.bank_accounts.find? (fun b => some b.account_id == d.bank_account_id) with
        | none => (db, errorResult "Bank account not found")
        | some b =>
          let (db', tx) := appendTx db now (req.customer_id.getD 0) .sendMoney none
            (some b.account_id) none none none (-(d.amount.getD 0)) 0 req.notes
          (db', successResult tx.transaction_id)
      | .receiveRawGold =>
        let (db', tx) := appendTx db now (req.customer_id.getD 0) .receiveRawGold none none
          none (some (d.weight_grams.getD 0)) (some (d.purity.getD 0))
          0 (d.weight_grams.getD 0) req.notes
        (db', successResult tx.transaction_id)
      | .giveRawGold =>
        let (db', tx) := appendTx db now (req.customer_id.getD 0) .giveRawGold none none
          none (some (d.weight_grams.getD 0)) (some (d.purity.getD 0))
          0 (-(d.weight_grams.getD 0)) req.notes
        (db', successResult tx.transaction_id)
      | .receiveJewelry =>
        match db.jewelry_items.find? (fun j => some j.jewelry_code == d.jewelry_code) with
        | none => (db, errorResult "Jewelry not found")
        | some j =>
          let pure_gold := j.weight_grams * j.purity
          let (db', tx) := appendTx (setConsignment db j.jewelry_id) now
            (req.customer_id.getD 0) .receiveJewelry (some j.jewelry_id) none
            none none none 0 pure_gold req.notes
          (db', successResult tx.transaction_id)
      | .giveJewelry =>
        match db.jewelry_items.find? (fun j => some j.jewelry_code == d.jewelry_code) with
        | none => (db, errorResult "Jewelry not found")
        | some j =>
          let pure_gold := j.weight_grams * j.purity
          let (db', tx) := appendTx db now (req.customer_id.getD 0) .giveJewelry
            (some j.jewelry_id) none none none none 0 (-pure_gold) req.notes
          (db', successResult tx.transaction_id)

/-- `_calculate_customer_balance`: the coalesced ledger sums, then the customer
lookup; an unknown customer yields the all-zero balance dict. -/
def calculateCustomerBalance (db : DB) (customer_id : Nat) : Balance :=
  let sums := customerSums db customer_id
  match db.customers.find? (fun c => c.customer_id == customer_id) with
  | none => { rial := 0, gold_gr := 0, usd := 0 }
  | some c =>
    { rial := c.initial_money_balance + sums.1
      gold_gr := c.initial_gold_balance_grams + sums.2
      usd := 0 }

/-- `SqlAlchemyAdapter.get_account_balance` on a numeric account id. -/
def sqlGetAccountBalance (db : DB) (account_id : Nat) : Balance :=
  calculateCustomerBalance db account_id

/-! ### Mock adapter, from `src/adapters/mock_adapter.py` -/

/-- One mock account record. -/
structure MockAccount where
  id : String
  name : String
  type : String
  balance : Balance
deriving DecidableEq, Repr

/-- The mock adapter's in-memory state: fixed accounts, a gold price, and the
transaction log. -/
structure MockState where
  accounts : List MockAccount
  gold_price : ℚ
  transaction_log : List (String × TxRequest)
deriving DecidableEq, Repr

/-- `MockAccountingAdapter.get_account_balance`: the account's balance dict, or the
empty dict (`none`) when the id is unknown. -/
def mockGetAccountBalance (m : MockState) (account_id : String) : Option Balance :=
  (m.accounts.find? (fun a => a.id == account_id)).map (fun a => a.balance)

/-- `MockAccountingAdapter.execute_transaction`: log the request under a fresh uuid
(threaded as an explicit argument) and return success unconditionally — no field of
the request is validated. -/
def mockExecute (m : MockState) (fresh_uuid : String) (req : TxRequest) :
    MockState × TxResult :=
  ({ m with transaction_log := m.transaction_log ++ [(fresh_uuid, req)] },
   { status := "success", transaction_id := some fresh_uuid,
     message := some "Transaction executed successfully" })

/-! ### Statement-side definitions and concrete fixtures -/

/-- The §4.1 sign table of the spec, written from the spec's words: the authoritative
signed deltas each variant's appended row must carry (for jewelry variants, the
weight × purity of the referenced catalog item, read at processing time). -/
def tableDeltas (db : DB) (details : TransactionDetails) (tx : Transaction) : Prop :=
  match details with
  | .sellRawGold _ w price => tx.money_amount = price ∧ tx.gold_amount_grams = -w
  | .buyRawGold _ w price => tx.money_amount = -price ∧ tx.gold_amount_grams = w
  | .receiveMoney amount _ => tx.money_amount = amount ∧ tx.gold_amount_grams = 0
  | .sendMoney amount _ => tx.money_amount = -amount ∧ tx.gold_amount_grams = 0
  | .receiveRawGold w _ => tx.money_amount = 0 ∧ tx.gold_amount_grams = w
  | .giveRawGold w _ => tx.money_amount = 0 ∧ tx.gold_amount_grams = -w
  | .receiveJewelry code => tx.money_amount = 0 ∧
      ∃ j, db.jewelry_items.find? (fun x => x.jewelry_code == code) = some j ∧
        tx.gold_amount_grams = j.weight_grams * j.purity
  | .giveJewelry code => tx.money_amount = 0 ∧
      ∃ j, db.jewelry_items.find? (fun x => x.jewelry_code == code) = some j ∧
        tx.gold_amount_grams = -(j.weight_grams * j.purity)

/-- Replace every catalog item's mutable `status` label (used to state that the
custody projection is independent of it). -/
def withStatuses (db : DB) (f : JewelryItem → String) : DB :=
  { db with jewelry_items := db.jewelry_items.map (fun j => { j with status := f j }) }

/-- Fixture: a customer with zero initial balances. -/
def cust1 : Customer :=
  { customer_id := 1, full_name := "Customer One",
    initial_money_balance := 0, initial_gold_balance_grams := 0 }

/-- Fixture: one bank account. -/
def bank1 : BankAccount := { account_id := 1, account_name := "Main Account" }

/-- Fixture: the RING-001 catalog item, weight 5.5 g at purity 0.750. -/
def ring1 : JewelryItem :=
  { jewelry_id := 1, jewelry_code := "RING-001", name := "Gold Ring",
    weight_grams := 11 / 2, purity := 3 / 4, premium := 0, status := "In Stock" }

/-- Fixture: a store holding `cust1`, `bank1` and `ring1` and an empty ledger. -/
def baseDB : DB :=
  { customers := [cust1], bank_accounts := [bank1], jewelry_items := [ring1],
    transactions := [], next_tx_id := 1 }

/-- Fixture: a completely empty store. -/
def emptyDB : DB :=
  { customers := [], bank_accounts := [], jewelry_items := [], transactions := [],
    next_tx_id := 1 }

/-- Fixture: receive 10 g of raw gold at purity 0.999. -/
def ev999 : Event :=
  { time := 0, customer_id := 1, tx_type := .receiveRawGold,
    details := .receiveRawGold 10 (999 / 1000), notes := none }

/-- Fixture: give 5 g of raw gold at purity 0.750. -/
def ev750 : Event :=
  { time := 1, customer_id := 1, tx_type := .giveRawGold,
    details := .giveRawGold 5 (3 / 4), notes := none }

/-- Fixture: the two-purity scenario store. -/
def db4 : DB := applyEvents baseDB [ev999, ev750]

/-- Fixture: receive the RING-001 jewelry item on consignment. -/
def evRing : Event :=
  { time := 0, customer_id := 1, tx_type := .receiveJewelry,
    details := .receiveJewelry "RING-001", notes := none }

/-- Fixture: give the RING-001 jewelry item back. -/
def evRingBack : Event :=
  { time := 1, customer_id := 1, tx_type := .giveJewelry,
    details := .giveJewelry "RING-001", notes := none }

/-- Fixture: the consignment round-trip store (receive RING-001, then give it
back). -/
def db9 : DB := applyEvents baseDB [evRing, evRingBack]

/-- Fixture: an adapter request naming an unknown customer. -/
def reqUnknownCustomer : TxRequest :=
  { customer_id := some 999, transaction_type := some "Receive Money",
    details := DetailsDict.empty, notes := none }

/-- Fixture: a Sell Raw Gold adapter request whose details dict is empty. -/
def reqEmptySell : TxRequest :=
  { customer_id := some 1, transaction_type := some "Sell Raw Gold",
    details := DetailsDict.empty, notes := none }

/-- Fixture: a mock-adapter state with no accounts and an empty log. -/
def mockEmpty : MockState :=
  { accounts := [], gold_price := 10000000, transaction_log := [] }

/-! ### Shared structural lemmas -/

theorem setConsignment_customers (db : DB) (jid : Nat) :
    (setConsignment db jid).customers = db.customers := rfl

theorem setConsignment_transactions (db : DB) (jid : Nat) :
    (setConsignment db jid).transactions = db.transactions := rfl

/-- A successful `create_transaction` call only appends: the entity tables are
untouched (except the jewelry-status side channel) and exactly one row, stamped with
the given customer, clock reading and declared type, lands at the end of the
ledger. -/
theorem create_ok_shape (db : DB) (now cid : Nat) (ty : TransactionType)
    (details : TransactionDetails) (notes : Option String) (r : DB × Transaction)
    (h : create_transaction db now cid ty details notes = .ok r) :
    r.1.customers = db.customers ∧ r.1.bank_accounts = db.bank_accounts ∧
    r.1.transactions = db.transactions ++ [r.2] ∧
    r.2.customer_id = cid ∧ r.2.transaction_date = now ∧ r.2.transaction_type = ty := by
  unfold create_transaction at h
  split at h
  · cases h
  · split at h
    all_goals try split at h
    all_goals cases h
    all_goals exact ⟨rfl, rfl, rfl, rfl, rfl, rfl⟩

/-- Applying one event never changes the customer table. -/
theorem applyEvent_customers (db : DB) (ev : Event) :
    (applyEvent db ev).customers = db.customers := by
  unfold applyEvent
  split
  · next r hr => exact (create_ok_shape _ _ _ _ _ _ _ hr).1
  · rfl

/-- Applying any sequence of events never changes the customer table. -/
theorem applyEvents_customers (evs : List Event) (db : DB) :
    (applyEvents db evs).customers = db.customers := by
  induction evs generalizing db with
  | nil => rfl
  | cons e es ih =>
    show (applyEvents (applyEvent db e) es).customers = db.customers
    rw [ih, applyEvent_customers]

/-- Membership in the grouped keys is membership in the underlying key list. -/
theorem mem_groupKeys {α : Type} [DecidableEq α] (x : α) (l : List α) :
    x ∈ groupKeys l ↔ x ∈ l := by
  induction l using groupKeys.induct with
  | case1 => simp [groupKeys]
  | case2 a l ih =>
    rw [groupKeys]
    by_cases hx : x = a
    · simp [hx]
    · simp only [List.mem_cons, ih, List.mem_filter]
      simp [hx]

/-- The grouped keys are distinct: SQL `GROUP BY` yields one bucket per key. -/
theorem groupKeys_nodup {α : Type} [DecidableEq α] (l : List α) :
    (groupKeys l).Nodup := by
  induction l using groupKeys.induct with
  | case1 => simp [groupKeys]
  | case2 a l ih =>
    rw [groupKeys, List.nodup_cons]
    refine ⟨?_, ih⟩
    rw [mem_groupKeys]
    simp

/-- Sorting an already date-sorted list is the identity: the stable
`ORDER BY transaction_date` leaves a ledger whose dates are nondecreasing in
insertion order exactly in insertion order. -/
theorem sortByDate_of_sorted (l : List Transaction)
    (h : l.Pairwise (fun a b => a.transaction_date ≤ b.transaction_date)) :
    sortByDate l = l := by
  induction l with
  | nil => rfl
  | cons t ts ih =>
    rw [sortByDate, ih (List.Pairwise.of_cons h)]
    cases ts with
    | nil => rfl
    | cons u us =>
      have hle : t.transaction_date ≤ u.transaction_date :=
        (List.pairwise_cons.mp h).1 u (by simp)
      rw [insertByDate, if_pos hle]

/-- After `setConsignment`, the targeted item's status is the consignment marker. -/
theorem setConsignment_status (db : DB) (jid : Nat) (x : JewelryItem)
    (hx : x ∈ (setConsignment db jid).jewelry_items) (hid : x.jewelry_id = jid) :
    x.status = "In Stock (Consignment)" := by
  unfold setConsignment at hx
  simp only [List.mem_map] at hx
  obtain ⟨y, -, rfl⟩ := hx
  by_cases hy : y.jewelry_id = jid
  · simp [hy]
  · simp only [beq_iff_eq, if_neg hy] at hid ⊢
    exact absurd hid hy

/-- The reported jewelry code ignores the items' status labels. -/
theorem jewelryCodeFor_withStatuses (db : DB) (f : JewelryItem → String) (i : Nat) :
    jewelryCodeFor (withStatuses db f) i = jewelryCodeFor db i := by
  unfold jewelryCodeFor withStatuses
  rw [List.find?_map]
  have hp : ((fun j : JewelryItem => j.jewelry_id == i) ∘
      (fun j : JewelryItem => { j with status := f j })) =
      (fun j : JewelryItem => j.jewelry_id == i) := rfl
  rw [hp]
  cases db.jewelry_items.find? (fun j => j.jewelry_id == i) <;> rfl

/-- Every `execute_transaction` call on the SQLAlchemy adapter ends in exactly one of
two result shapes: an error dict with a message and an untouched store, or a success
dict with a transaction id and exactly one appended row. -/
theorem adapterExecute_cases (db : DB) (now : Nat) (req : TxRequest) :
    ((adapterExecute db now req).2.status = "error" ∧ (adapterExecute db now req).1 = db ∧
      (adapterExecute db now req).2.transaction_id = none ∧
      (adapterExecute db now req).2.message.isSome) ∨
    ((adapterExecute db now req).2.status = "success" ∧
      (adapterExecute db now req).2.transaction_id.isSome ∧
      (adapterExecute db now req).2.message.isSome ∧
      ∃ tx, (adapterExecute db now req).1.transactions = db.transactions ++ [tx]) := by
  unfold adapterExecute
  split
  · exact Or.inl ⟨rfl, rfl, rfl, rfl⟩
  · split
    · exact Or.inl ⟨rfl, rfl, rfl, rfl⟩
    · split
      all_goals dsimp only
      all_goals try split
      all_goals first
        | exact Or.inl ⟨rfl, rfl, rfl, rfl⟩
        | exact Or.inr ⟨rfl, rfl, rfl, _, rfl⟩

/-- An error result from the SQLAlchemy adapter leaves the store unchanged. -/
theorem adapterExecute_error_state (db : DB) (now : Nat) (req : TxRequest)
    (h : (adapterExecute db now req).2.status = "error") :
    (adapterExecute db now req).1 = db := by
  rcases adapterExecute_cases db now req with ⟨-, hdb, -, -⟩ | ⟨hs, -, -, -⟩
  · exact hdb
  · rw [hs] at h
    exact absurd h (by decide)

/-! ### Claim theorems -/

/-- C1: after any sequence of submitted events, every customer's projected money
balance equals the customer's `initial_money_balance` plus the sum of `money_amount`
over the ledger rows carrying that customer's id, and likewise the gold balance with
`initial_gold_balance_grams` and `gold_amount_grams`; the customer record (hence its
initial balances) is never touched by transaction processing. -/
theorem balances_are_initial_plus_ledger_sums (db : DB) (evs : List Event)
    (c : Customer) (hc : c ∈ db.customers) :
    c ∈ (applyEvents db evs).customers ∧
    moneyBalance (applyEvents db evs) c =
      c.initial_money_balance +
        (((applyEvents db evs).transactions.filter
            (fun t => t.customer_id == c.customer_id)).map (fun t => t.money_amount)).sum ∧
    goldBalance (applyEvents db evs) c =
      c.initial_gold_balance_grams +
        (((applyEvents db evs).transactions.filter
            (fun t => t.customer_id == c.customer_id)).map
          (fun t => t.gold_amount_grams)).sum := by
  refine ⟨?_, rfl, rfl⟩
  rw [applyEvents_customers]
  exact hc

/-- Witness for C1 at the two-raw-gold-events fixture. -/
theorem balances_are_initial_plus_ledger_sums_witness :
    cust1 ∈ baseDB.customers ∧
    (cust1 ∈ (applyEvents baseDB [ev999, ev750]).customers ∧
     moneyBalance (applyEvents baseDB [ev999, ev750]) cust1 =
       cust1.initial_money_balance +
         (((applyEvents baseDB [ev999, ev750]).transactions.filter
             (fun t => t.customer_id == cust1.customer_id)).map
           (fun t => t.money_amount)).sum ∧
     goldBalance (applyEvents baseDB [ev999, ev750]) cust1 =
       cust1.initial_gold_balance_grams +
         (((applyEvents baseDB [ev999, ev750]).transactions.filter
             (fun t => t.customer_id == cust1.customer_id)).map
           (fun t => t.gold_amount_grams)).sum) :=
  ⟨by simp [baseDB],
   balances_are_initial_plus_ledger_sums baseDB [ev999, ev750] cust1 (by simp [baseDB])⟩

/-- C2: whenever `create_transaction` accepts a business event, the appended row's
`money_amount` and `gold_amount_grams` are exactly the signed deltas of the §4.1
table; for the jewelry variants the gold delta is ±(weight × purity) of the catalog
item referenced by the payload's code, read from the store at processing time. -/
theorem valuation_signs_match_table (db : DB) (now cid : Nat) (ty : TransactionType)
    (details : TransactionDetails) (notes : Option String) (r : DB × Transaction)
    (h : create_transaction db now cid ty details notes = .ok r) :
    tableDeltas db details r.2 := by
  unfold create_transaction at h
  split at h
  · cases h
  · split at h
    all_goals try split at h
    all_goals cases h
    all_goals simp only [tableDeltas]
    all_goals first
      | exact ⟨rfl, rfl⟩
      | exact ⟨rfl, _, by assumption, rfl⟩

/-- Witness for C2 on a concrete Sell Raw Gold event. -/
theorem valuation_signs_match_table_witness :
    create_transaction baseDB 0 1 .sellRawGold
        (.sellRawGold (999 / 1000) 30 290000000) none =
      .ok (appendTx baseDB 0 1 .sellRawGold none none (some 290000000) (some 30)
        (some (999 / 1000)) 290000000 (-30) none) ∧
    tableDeltas baseDB (.sellRawGold (999 / 1000) 30 290000000)
      (appendTx baseDB 0 1 .sellRawGold none none (some 290000000) (some 30)
        (some (999 / 1000)) 290000000 (-30) none).2 :=
  ⟨rfl, valuation_signs_match_table baseDB 0 1 .sellRawGold
    (.sellRawGold (999 / 1000) 30 290000000) none _ rfl⟩

/-- C3: every entry of the jewelry custody projection is the custody label of the
net `gold_amount_grams` of its grouped item; the label is a pure function of the
sign of the net (strictly positive ⇒ held by us, strictly negative ⇒ with customer,
exactly zero ⇒ settled and nothing else); and rewriting every catalog item's mutable
`status` field leaves the projection unchanged. -/
theorem jewelry_custody_by_sign_and_status_independent (db : DB) (cid : Nat)
    (f : JewelryItem → String) :
    (∀ e ∈ jewelryBalance db cid, ∃ i : Nat,
        e = (jewelryCodeFor db i, custodyLabel (jewelryNet db cid i))) ∧
    (∀ n : ℚ, (custodyLabel n = "Held by us" ↔ 0 < n) ∧
      (custodyLabel n = "With customer" ↔ n < 0) ∧
      (custodyLabel n = "Settled" ↔ n = 0)) ∧
    jewelryBalance (withStatuses db f) cid = jewelryBalance db cid := by
  refine ⟨?_, ?_, ?_⟩
  · intro e he
    unfold jewelryBalance at he
    obtain ⟨i, -, rfl⟩ := List.mem_map.mp he
    exact ⟨i, rfl⟩
  · intro n
    unfold custodyLabel
    split_ifs with h1 h2
    · exact ⟨⟨fun _ => h1, fun _ => rfl⟩,
        ⟨fun hh => absurd hh (by decide), fun hh => absurd hh (lt_asymm h1)⟩,
        ⟨fun hh => absurd hh (by decide),
          fun hh => absurd (hh ▸ h1) (lt_irrefl 0)⟩⟩
    · exact ⟨⟨fun hh => absurd hh (by decide), fun hh => absurd hh h1⟩,
        ⟨fun _ => h2, fun _ => rfl⟩,
        ⟨fun hh => absurd hh (by decide),
          fun hh => absurd (hh ▸ h2) (lt_irrefl 0)⟩⟩
    · have h0 : n = 0 := le_antisymm (not_lt.mp h1) (not_lt.mp h2)
      exact ⟨⟨fun hh => absurd hh (by decide), fun hh => absurd hh h1⟩,
        ⟨fun hh => absurd hh (by decide), fun hh => absurd hh h2⟩,
        ⟨fun _ => h0, fun _ => rfl⟩⟩
  · show (groupKeys ((jewelryRows (withStatuses db f) cid).filterMap
        (fun t => t.item_id))).map
        (fun i => (jewelryCodeFor (withStatuses db f) i,
          custodyLabel (jewelryNet (withStatuses db f) cid i))) =
      (groupKeys ((jewelryRows db cid).filterMap (fun t => t.item_id))).map
        (fun i => (jewelryCodeFor db i, custodyLabel (jewelryNet db cid i)))
    have hrows : jewelryRows (withStatuses db f) cid = jewelryRows db cid := rfl
    have hnet : ∀ i, jewelryNet (withStatuses db f) cid i = jewelryNet db cid i :=
      fun _ => rfl
    rw [hrows]
    refine List.map_congr_left ?_
    intro i _
    rw [jewelryCodeFor_withStatuses, hnet]

/-- Witness for C3 at the consignment round-trip fixture. -/
theorem jewelry_custody_witness :
    (∀ e ∈ jewelryBalance db9 1, ∃ i : Nat,
        e = (jewelryCodeFor db9 i, custodyLabel (jewelryNet db9 1 i))) ∧
    (∀ n : ℚ, (custodyLabel n = "Held by us" ↔ 0 < n) ∧
      (custodyLabel n = "With customer" ↔ n < 0) ∧
      (custodyLabel n = "Settled" ↔ n = 0)) ∧
    jewelryBalance (withStatuses db9 (fun _ => "Label")) 1 = jewelryBalance db9 1 :=
  jewelry_custody_by_sign_and_status_independent db9 1 (fun _ => "Label")

/-- C4: the by-purity projection returns exactly one bucket per distinct non-null
purity among this customer's rows of the four raw-gold variants, each bucket summing
`gold_amount_grams` over the rows at that purity; on the 0.999 (+10 g) / 0.750 (−5 g)
fixture it returns two separate buckets, never one netted value. -/
theorem raw_gold_by_purity_buckets (db : DB) (cid : Nat) :
    ((rawGoldByPurity db cid).map Prod.fst).Nodup ∧
    (∀ p v, (p, v) ∈ rawGoldByPurity db cid →
      v = (((rawGoldRows db cid).filter (fun t => t.purity = some p)).map
        (fun t => t.gold_amount_grams)).sum) ∧
    (∀ p : ℚ, p ∈ (rawGoldByPurity db cid).map Prod.fst ↔
      ∃ t ∈ rawGoldRows db cid, t.purity = some p) ∧
    rawGoldByPurity db4 1 = [(999 / 1000, 10), (3 / 4, -5)] := by
  have hkeys : (rawGoldByPurity db cid).map Prod.fst =
      groupKeys ((rawGoldRows db cid).filterMap (fun t => t.purity)) := by
    unfold rawGoldByPurity
    rw [List.map_map]
    exact (List.map_congr_left fun a _ => rfl).trans (List.map_id _)
  refine ⟨?_, ?_, ?_, ?_⟩
  · rw [hkeys]
    exact groupKeys_nodup _
  · intro p v hpv
    unfold rawGoldByPurity at hpv
    obtain ⟨q, -, hq⟩ := List.mem_map.mp hpv
    injection hq with h1 h2
    subst h1
    subst h2
    rfl
  · intro p
    rw [hkeys, mem_groupKeys, List.mem_filterMap]
  · norm_num [db4, applyEvents, applyEvent, create_transaction, appendTx, baseDB,
      cust1, bank1, ring1, ev999, ev750, rawGoldByPurity, rawGoldRows, groupKeys,
      isRawGoldType, List.find?, List.filter, List.filterMap]

/-- Witness for C4 at the two-purity fixture. -/
theorem raw_gold_by_purity_buckets_witness :
    ((rawGoldByPurity db4 1).map Prod.fst).Nodup ∧
    (∀ p v, (p, v) ∈ rawGoldByPurity db4 1 →
      v = (((rawGoldRows db4 1).filter (fun t => t.purity = some p)).map
        (fun t => t.gold_amount_grams)).sum) ∧
    (∀ p : ℚ, p ∈ (rawGoldByPurity db4 1).map Prod.fst ↔
      ∃ t ∈ rawGoldRows db4 1, t.purity = some p) ∧
    rawGoldByPurity db4 1 = [(999 / 1000, 10), (3 / 4, -5)] :=
  raw_gold_by_purity_buckets db4 1

/-- C5: an `execute_transaction` call that returns an error result leaves the store
— hence every projection (money/gold balances, by-purity position, jewelry custody) —
unchanged; in particular a Send Money event naming an unknown `bank_account_id` is
rejected with NotFound on the validated path and with an error result on the adapter,
the ledger row count unchanged. -/
theorem rejected_event_leaves_state_unchanged (db : DB) (now : Nat) (req : TxRequest)
    (h : (adapterExecute db now req).2.status = "error") :
    (adapterExecute db now req).1 = db ∧
    (∀ c : Customer, moneyBalance (adapterExecute db now req).1 c = moneyBalance db c ∧
      goldBalance (adapterExecute db now req).1 c = goldBalance db c) ∧
    (∀ cid : Nat,
      rawGoldByPurity (adapterExecute db now req).1 cid = rawGoldByPurity db cid ∧
      jewelryBalance (adapterExecute db now req).1 cid = jewelryBalance db cid) ∧
    (∀ (cid : Nat) (amount : ℚ) (bid : Nat) (notes : Option String),
      (db.customers.find? (fun c => c.customer_id == cid)).isSome →
      db.bank_accounts.find? (fun b => b.account_id == bid) = none →
      create_transaction db now cid .sendMoney (.sendMoney amount bid) notes =
        .error (.notFound "Bank account not found") ∧
      ∀ (dd : DetailsDict) (nts : Option String), dd.bank_account_id = some bid →
        (adapterExecute db now
          { customer_id := some cid, transaction_type := some "Send Money",
            details := dd, notes := nts }).2.status = "error" ∧
        (adapterExecute db now
          { customer_id := some cid, transaction_type := some "Send Money",
            details := dd, notes := nts }).1.transactions.length =
          db.transactions.length) := by
  have hdb := adapterExecute_error_state db now req h
  refine ⟨hdb, fun c => by rw [hdb]; exact ⟨rfl, rfl⟩,
    fun cid => by rw [hdb]; exact ⟨rfl, rfl⟩, ?_⟩
  intro cid amount bid notes hc hb
  obtain ⟨c, hc'⟩ := Option.isSome_iff_exists.mp hc
  constructor
  · unfold create_transaction
    rw [hc']
    dsimp only
    rw [hb]
  · intro dd nts hdd
    have hc2 : db.customers.find? (fun x => some x.customer_id == some cid) = some c :=
      hc'
    have hb2 : db.bank_accounts.find?
        (fun b => some b.account_id == some bid) = none := hb
    have hparse : ((some "Send Money" : Option String).bind parseTransactionType) =
        some TransactionType.sendMoney := rfl
    have hstep : adapterExecute db now
        { customer_id := some cid, transaction_type := some "Send Money",
          details := dd, notes := nts } =
        (db, errorResult "Bank account not found") := by
      unfold adapterExecute
      dsimp only
      rw [hc2]
      dsimp only
      rw [hparse]
      dsimp only
      rw [hdd, hb2]
    rw [hstep]
    exact ⟨rfl, rfl⟩

/-- Witness for C5 on an adapter request naming an unknown customer. -/
theorem rejected_event_leaves_state_unchanged_witness :
    (adapterExecute baseDB 0 reqUnknownCustomer).2.status = "error" ∧
    ((adapterExecute baseDB 0 reqUnknownCustomer).1 = baseDB ∧
     (∀ c : Customer,
        moneyBalance (adapterExecute baseDB 0 reqUnknownCustomer).1 c =
          moneyBalance baseDB c ∧
        goldBalance (adapterExecute baseDB 0 reqUnknownCustomer).1 c =
          goldBalance baseDB c) ∧
     (∀ cid : Nat,
        rawGoldByPurity (adapterExecute baseDB 0 reqUnknownCustomer).1 cid =
          rawGoldByPurity baseDB cid ∧
        jewelryBalance (adapterExecute baseDB 0 reqUnknownCustomer).1 cid =
          jewelryBalance baseDB cid) ∧
     (∀ (cid : Nat) (amount : ℚ) (bid : Nat) (notes : Option String),
        (baseDB.customers.find? (fun c => c.customer_id == cid)).isSome →
        baseDB.bank_accounts.find? (fun b => b.account_id == bid) = none →
        create_transaction baseDB 0 cid .sendMoney (.sendMoney amount bid) notes =
          .error (.notFound "Bank account not found") ∧
        ∀ (dd : DetailsDict) (nts : Option String), dd.bank_account_id = some bid →
          (adapterExecute baseDB 0
            { customer_id := some cid, transaction_type := some "Send Money",
              details := dd, notes := nts }).2.status = "error" ∧
          (adapterExecute baseDB 0
            { customer_id := some cid, transaction_type := some "Send Money",
              details := dd, notes := nts }).1.transactions.length =
            baseDB.transactions.length)) :=
  ⟨rfl, rejected_event_leaves_state_unchanged baseDB 0 reqUnknownCustomer rfl⟩

/-- C6 counterexample: the SQLAlchemy adapter accepts a Sell Raw Gold event whose
details dict is entirely empty — the required `price`/`weight_grams`/`purity` fields
silently default to 0 and a ledger row is appended with success, instead of the call
failing with InvalidPayload. -/
theorem adapter_accepts_defaulted_payload :
    (adapterExecute baseDB 0 reqEmptySell).2.status = "success" ∧
    ∃ tx, (adapterExecute baseDB 0 reqEmptySell).1.transactions = [tx] ∧
      tx.money_amount = 0 ∧ tx.gold_amount_grams = 0 ∧
      tx.transaction_type = .sellRawGold := by
  refine ⟨rfl, _, rfl, rfl, ?_, rfl⟩
  show (-(0 : ℚ)) = 0
  norm_num

/-- C6 (amended): on the schema-validated path a details payload of the wrong
variant for the declared transaction type is rejected with InvalidPayload before any
row is written; the SQLAlchemy adapter, by contrast, substitutes 0 for missing
payload fields, so a Sell Raw Gold event with an empty details dict is accepted with
zero deltas rather than rejected. -/
theorem invalid_payload_rejected_but_adapter_defaults (db : DB) (now cid : Nat)
    (ty : TransactionType) (details : TransactionDetails) (notes : Option String)
    (hc : (db.customers.find? (fun c => c.customer_id == cid)).isSome)
    (hm : details.variant ≠ ty) :
    (∃ msg, create_transaction db now cid ty details notes =
      .error (.invalidPayload msg)) ∧
    (∀ req : TxRequest, req.customer_id = some cid →
      req.transaction_type = some "Sell Raw Gold" → req.details = DetailsDict.empty →
      (adapterExecute db now req).2.status = "success" ∧
      ∃ tx, (adapterExecute db now req).1.transactions = db.transactions ++ [tx] ∧
        tx.money_amount = 0 ∧ tx.gold_amount_grams = 0) := by
  obtain ⟨c, hc'⟩ := Option.isSome_iff_exists.mp hc
  constructor
  · unfold create_transaction
    rw [hc']
    dsimp only
    cases ty <;> cases details <;>
      first
      | exact absurd rfl hm
      | exact ⟨_, rfl⟩
  · intro req h1 h2 h3
    obtain ⟨rc, rt, rd, rn⟩ := req
    simp only at h1 h2 h3
    subst h1
    subst h2
    subst h3
    have hc2 : db.customers.find? (fun x => some x.customer_id == some cid) = some c :=
      hc'
    have hparse : ((some "Sell Raw Gold" : Option String).bind parseTransactionType) =
        some TransactionType.sellRawGold := rfl
    have hstep : adapterExecute db now
        { customer_id := some cid, transaction_type := some "Sell Raw Gold",
          details := DetailsDict.empty, notes := rn } =
        ((appendTx db now cid .sellRawGold none none (some 0) (some 0) (some 0)
            0 (-0) rn).1,
         successResult (appendTx db now cid .sellRawGold none none (some 0) (some 0)
            (some 0) 0 (-0) rn).2.transaction_id) := by
      unfold adapterExecute
      dsimp only
      rw [hc2]
      dsimp only
      rw [hparse]
      rfl
    rw [hstep]
    refine ⟨rfl, _, rfl, rfl, ?_⟩
    show (-(0 : ℚ)) = 0
    norm_num

/-- Witness for C6's amended theorem: a Receive Money payload declared as Sell Raw
Gold is rejected with InvalidPayload, while the adapter path accepts the defaulted
empty dict. -/
theorem invalid_payload_rejected_but_adapter_defaults_witness :
    ((baseDB.customers.find? (fun c => c.customer_id == 1)).isSome ∧
      (TransactionDetails.receiveMoney 5 1).variant ≠ TransactionType.sellRawGold) ∧
    ((∃ msg, create_transaction baseDB 0 1 .sellRawGold (.receiveMoney 5 1) none =
        .error (.invalidPayload msg)) ∧
     (∀ req : TxRequest, req.customer_id = some 1 →
        req.transaction_type = some "Sell Raw Gold" →
        req.details = DetailsDict.empty →
        (adapterExecute baseDB 0 req).2.status = "success" ∧
        ∃ tx, (adapterExecute baseDB 0 req).1.transactions =
            baseDB.transactions ++ [tx] ∧
          tx.money_amount = 0 ∧ tx.gold_amount_grams = 0)) :=
  ⟨⟨rfl, by decide⟩,
   invalid_payload_rejected_but_adapter_defaults baseDB 0 1 .sellRawGold
     (.receiveMoney 5 1) none rfl (by decide)⟩

/-- C7 counterexample: the two implementations do not accept or reject the same
inputs — a request naming an unknown customer is rejected by the SQLAlchemy adapter
but accepted unconditionally by the mock adapter. -/
theorem mock_and_sql_disagree_on_unknown_customer :
    (adapterExecute emptyDB 0 reqUnknownCustomer).2.status = "error" ∧
    (mockExecute mockEmpty "uuid-1" reqUnknownCustomer).2.status = "success" ∧
    (adapterExecute emptyDB 0 reqUnknownCustomer).2.status ≠
      (mockExecute mockEmpty "uuid-1" reqUnknownCustomer).2.status :=
  ⟨rfl, rfl, by decide⟩

/-- C7 (amended): both implementations always return a result object whose status is
success (carrying a transaction identifier) or error (carrying a failure message) and
never throw across the interface boundary, with an error leaving the SQLAlchemy
store untouched; they do not, however, accept or reject identically — the mock
implementation returns success for every input without validating anything. -/
theorem execute_transaction_result_shape (db : DB) (now : Nat) (req : TxRequest)
    (m : MockState) (u : String) :
    (((adapterExecute db now req).2.status = "success" ∧
        (adapterExecute db now req).2.transaction_id.isSome) ∨
      ((adapterExecute db now req).2.status = "error" ∧
        (adapterExecute db now req).2.message.isSome ∧
        (adapterExecute db now req).1 = db)) ∧
    (mockExecute m u req).2.status = "success" ∧
    (mockExecute m u req).2.transaction_id = some u := by
  refine ⟨?_, rfl, rfl⟩
  rcases adapterExecute_cases db now req with ⟨he, hdb, -, hmsg⟩ | ⟨hs, hid, -, -⟩
  · exact Or.inr ⟨he, hmsg, hdb⟩
  · exact Or.inl ⟨hs, hid⟩

/-- C8: `get_transactions` returns the customer's rows oldest first, and when the
ledger's dates are nondecreasing in insertion order (as `datetime.utcnow` stamps them
at append time) the returned order is exactly insertion order; moreover applying one
more event whose clock reading dominates every existing row keeps the ledger
date-sorted, so the property is preserved across any sequence of appends. -/
theorem get_transactions_insertion_order (db : DB) (cid : Nat)
    (hc : (db.customers.find? (fun c => c.customer_id == cid)).isSome)
    (hsorted : db.transactions.Pairwise
      (fun a b => a.transaction_date ≤ b.transaction_date)) :
    get_customer_transactions db cid =
      .ok (db.transactions.filter (fun t => t.customer_id == cid)) ∧
    ∀ ev : Event, (∀ t ∈ db.transactions, t.transaction_date ≤ ev.time) →
      (applyEvent db ev).transactions.Pairwise
        (fun a b => a.transaction_date ≤ b.transaction_date) := by
  constructor
  · obtain ⟨c, hc'⟩ := Option.isSome_iff_exists.mp hc
    unfold get_customer_transactions
    rw [hc']
    dsimp only
    rw [sortByDate_of_sorted _
      (List.Pairwise.sublist (List.filter_sublist _) hsorted)]
  · intro ev hdom
    unfold applyEvent
    split
    · rename_i db' tx hr
      have hshape := create_ok_shape _ _ _ _ _ _ _ hr
      dsimp only at hshape
      obtain ⟨-, -, htrans, -, hdate, -⟩ := hshape
      rw [htrans, List.pairwise_append]
      refine ⟨hsorted, List.pairwise_singleton _ _, ?_⟩
      intro a ha b hb
      rw [List.mem_singleton] at hb
      subst hb
      rw [hdate]
      exact hdom a ha
    · exact hsorted

/-- Witness for C8 at the base fixture with an empty ledger. -/
theorem get_transactions_insertion_order_witness :
    ((baseDB.customers.find? (fun c => c.customer_id == 1)).isSome ∧
      baseDB.transactions.Pairwise
        (fun a b => a.transaction_date ≤ b.transaction_date)) ∧
    (get_customer_transactions baseDB 1 =
      .ok (baseDB.transactions.filter (fun t => t.customer_id == 1)) ∧
    ∀ ev : Event, (∀ t ∈ baseDB.transactions, t.transaction_date ≤ ev.time) →
      (applyEvent baseDB ev).transactions.Pairwise
        (fun a b => a.transaction_date ≤ b.transaction_date)) :=
  ⟨⟨rfl, List.Pairwise.nil⟩,
   get_transactions_insertion_order baseDB 1 rfl List.Pairwise.nil⟩

/-- C9: a Receive Jewelry event for an existing code appends a row whose gold delta
is exactly the item's weight × purity read at processing time, with zero money delta,
and the same store update marks the item's status with the consignment marker; a
Give Jewelry for the same code appends −(weight × purity); on the RING-001 fixture
(5.5 g at 0.750) the received delta is +4.125 and after the give-back the custody
projection reports the item as settled. -/
theorem receive_jewelry_snapshot_and_settled (db : DB) (now cid : Nat) (code : String)
    (j : JewelryItem) (notes : Option String)
    (hj : db.jewelry_items.find? (fun x => x.jewelry_code == code) = some j)
    (hc : (db.customers.find? (fun c => c.customer_id == cid)).isSome) :
    (∃ r, create_transaction db now cid .receiveJewelry (.receiveJewelry code) notes =
        .ok r ∧
      r.2.gold_amount_grams = j.weight_grams * j.purity ∧ r.2.money_amount = 0 ∧
      r.2.item_id = some j.jewelry_id ∧
      r.1.transactions = db.transactions ++ [r.2] ∧
      (∀ x ∈ r.1.jewelry_items, x.jewelry_id = j.jewelry_id →
        x.status = "In Stock (Consignment)")) ∧
    (∃ r, create_transaction db now cid .giveJewelry (.giveJewelry code) notes =
        .ok r ∧
      r.2.gold_amount_grams = -(j.weight_grams * j.purity) ∧ r.2.money_amount = 0) ∧
    (applyEvent baseDB evRing).transactions.map (fun t => t.gold_amount_grams) =
      [33 / 8] ∧
    (∃ x ∈ (applyEvent baseDB evRing).jewelry_items,
      x.jewelry_code = "RING-001" ∧ x.status = "In Stock (Consignment)") ∧
    jewelryBalance db9 1 = [("RING-001", "Settled")] := by
  obtain ⟨c, hc'⟩ := Option.isSome_iff_exists.mp hc
  refine ⟨?_, ?_, ?_, ?_, ?_⟩
  · refine ⟨appendTx (setConsignment db j.jewelry_id) now cid .receiveJewelry
        (some j.jewelry_id) none none none none 0 (j.weight_grams * j.purity) notes,
      ?_, rfl, rfl, rfl, rfl, ?_⟩
    · unfold create_transaction
      rw [hc']
      dsimp only
      rw [hj]
    · intro x hx hid
      exact setConsignment_status db j.jewelry_id x hx hid
  · refine ⟨appendTx db now cid .giveJewelry (some j.jewelry_id) none none none none 0
        (-(j.weight_grams * j.purity)) notes, ?_, rfl, rfl⟩
    unfold create_transaction
    rw [hc']
    dsimp only
    rw [hj]
  · norm_num [applyEvent, create_transaction, appendTx, setConsignment, baseDB,
      cust1, bank1, ring1, evRing, List.find?]
  · refine ⟨{ ring1 with status := "In Stock (Consignment)" }, ?_, rfl, rfl⟩
    simp [applyEvent, create_transaction, appendTx, setConsignment, baseDB,
      cust1, bank1, ring1, evRing, List.find?]
  · norm_num [db9, applyEvents, applyEvent, create_transaction, appendTx,
      setConsignment, baseDB, cust1, bank1, ring1, evRing, evRingBack,
      jewelryBalance, jewelryRows, jewelryNet, jewelryCodeFor, groupKeys,
      isJewelryType, custodyLabel, List.find?, List.filter, List.filterMap]

/-- Witness for C9 at the RING-001 fixture. -/
theorem receive_jewelry_snapshot_and_settled_witness :
    (baseDB.jewelry_items.find? (fun x => x.jewelry_code == "RING-001") = some ring1 ∧
      (baseDB.customers.find? (fun c => c.customer_id == 1)).isSome) ∧
    ((∃ r, create_transaction baseDB 0 1 .receiveJewelry (.receiveJewelry "RING-001")
        none = .ok r ∧
      r.2.gold_amount_grams = ring1.weight_grams * ring1.purity ∧
      r.2.money_amount = 0 ∧ r.2.item_id = some ring1.jewelry_id ∧
      r.1.transactions = baseDB.transactions ++ [r.2] ∧
      (∀ x ∈ r.1.jewelry_items, x.jewelry_id = ring1.jewelry_id →
        x.status = "In Stock (Consignment)")) ∧
    (∃ r, create_transaction baseDB 0 1 .giveJewelry (.giveJewelry "RING-001") none =
        .ok r ∧
      r.2.gold_amount_grams = -(ring1.weight_grams * ring1.purity) ∧
      r.2.money_amount = 0) ∧
    (applyEvent baseDB evRing).transactions.map (fun t => t.gold_amount_grams) =
      [33 / 8] ∧
    (∃ x ∈ (applyEvent baseDB evRing).jewelry_items,
      x.jewelry_code = "RING-001" ∧ x.status = "In Stock (Consignment)") ∧
    jewelryBalance db9 1 = [("RING-001", "Settled")]) :=
  ⟨⟨rfl, rfl⟩,
   receive_jewelry_snapshot_and_settled baseDB 0 1 "RING-001" ring1 none rfl rfl⟩

/-- C10: an account id matching no customer raises nothing — the SQLAlchemy adapter
returns the all-zero balance dict while the mock adapter returns the empty dict. -/
theorem unknown_account_balance_zero_sql_empty_mock (db : DB) (aid : Nat)
    (m : MockState) (s : String)
    (hsql : db.customers.find? (fun c => c.customer_id == aid) = none)
    (hmock : m.accounts.find? (fun a => a.id == s) = none) :
    sqlGetAccountBalance db aid = { rial := 0, gold_gr := 0, usd := 0 } ∧
    mockGetAccountBalance m s = none := by
  constructor
  · unfold sqlGetAccountBalance calculateCustomerBalance
    rw [hsql]
  · unfold mockGetAccountBalance
    rw [hmock]
    rfl

/-- Witness for C10 on an empty store and empty mock state. -/
theorem unknown_account_balance_witness :
    (emptyDB.customers.find? (fun c => c.customer_id == 7) = none ∧
      mockEmpty.accounts.find? (fun a => a.id == "zz") = none) ∧
    (sqlGetAccountBalance emptyDB 7 = { rial := 0, gold_gr := 0, usd := 0 } ∧
      mockGetAccountBalance mockEmpty "zz" = none) :=
  ⟨⟨rfl, rfl⟩, unknown_account_balance_zero_sql_empty_mock emptyDB 7 mockEmpty "zz"
    rfl rfl⟩

end GoldAi
